import Mathlib

/-!
Verification development for `scripts/aad_analyzer.py`, a one-shot SQLite
analysis and CSV-export script.  The script is shallowly embedded as pure
Lean functions producing a trace of observable events (database connections,
SQL statements issued, log-file lines, console prints, directory creation
and CSV file writes).  External libraries are modelled at the granularity
the script observes them:

* `sqlite3` queries are given their denotation over an explicit `Database`
  value (`SELECT * FROM t` is a table lookup, the aggregate `GROUP BY`
  queries are counting functions);
* `pandas` DataFrames are column-major lists of typed columns; the textual
  pretty-printer `to_string` is abstracted by a `logDF` event carrying the
  very DataFrame whose rendering is written to the log;
* exceptions raised by the I/O layer inside a stage are modelled by an
  explicit `fault : Option String` argument per stage (the fault, when
  present, is raised at the stage's first database operation inside the
  corresponding region of code); exceptions that the script itself can
  provoke (a missing table or column) are modelled concretely;
* `datetime.now().strftime` is modelled by a timestamp string argument.
-/

/-! ### Generic list and string utilities -/

/-- `l` starts with `p` (list version, decidable by computation). -/
def startsWithList : List Char → List Char → Bool
  | _, [] => true
  | [], _ :: _ => false
  | a :: as, b :: bs => a = b && startsWithList as bs

/-- `needle` occurs contiguously inside `hay`. -/
def containsList (hay needle : List Char) : Bool :=
  match hay with
  | [] => needle.isEmpty
  | _ :: t => startsWithList hay needle || containsList t needle

/-- Insert `x` into `l` before the first element `y` with `le x y`
(stable insertion used by `sortLe`). -/
def insertLe {α : Type} (le : α → α → Bool) (x : α) : List α → List α
  | [] => [x]
  | y :: ys => if le x y then x :: y :: ys else y :: insertLe le x ys

/-- Stable insertion sort by a boolean relation; models the deterministic
order an `ORDER BY` clause imposes on query results. -/
def sortLe {α : Type} (le : α → α → Bool) (l : List α) : List α :=
  List.foldr (insertLe le) [] l

/-- First-occurrence distinct values of a list; models the set of groups a
`GROUP BY` clause produces. -/
def distinctL {α : Type} [DecidableEq α] (l : List α) : List α :=
  l.foldl (fun acc c => if acc.contains c then acc else acc ++ [c]) []

/-- Python `f"{s:<w}"`: pad `s` on the right with spaces to width `w`. -/
def padRight (s : String) (w : Nat) : String :=
  s ++ String.mk (List.replicate (w - s.data.length) ' ')

/-- Python `str.strip()` on the character list: drop leading and trailing
whitespace. -/
def pyStripList (cs : List Char) : List Char :=
  ((cs.dropWhile Char.isWhitespace).reverse.dropWhile Char.isWhitespace).reverse

/-- Python `str.strip()`. -/
def pyStrip (s : String) : String :=
  String.mk (pyStripList s.data)

/-- Lexicographic order on character lists (the order SQLite and pandas use
for text values, restricted to what the claims need). -/
def charListLe : List Char → List Char → Bool
  | [], _ => true
  | _ :: _, [] => false
  | a :: as, b :: bs => if a = b then charListLe as bs else decide (a < b)

/-- The regular expression `(\d{4})` of `aad_analyzer.py` line 114: the
first run of four consecutive digits of the string, if any. -/
def extract4 : List Char → Option (List Char)
  | c1 :: c2 :: c3 :: c4 :: rest =>
    if c1.isDigit && c2.isDigit && c3.isDigit && c4.isDigit then some [c1, c2, c3, c4]
    else extract4 (c2 :: c3 :: c4 :: rest)
  | _ => none

/-- A single Python quote character, for rendering `list(df.columns)`. -/
def quoteStr : String := String.mk [Char.ofNat 39]

/-- Python `repr` of a list of strings, as an f-string interpolates
`list(df.columns)`: `['a', 'b']`. -/
def pyListRepr (xs : List String) : String :=
  "[" ++ String.intercalate ", " (xs.map (fun s => quoteStr ++ s ++ quoteStr)) ++ "]"

/-! ### Data model

A `Database` is the SQLite file's contents: a list of named tables, each
with columns `(name, declared SQL type, pandas dtype inferred by
`read_sql_query`)` and row-major cell data.  A `Cell` is `NULL`, an
integer, or a text value (the AAD database holds no REALs or BLOBs, and no
claim concerns them). -/

/-- A pandas column dtype, at the granularity `aad_analyzer.py` tests it
(line 168 compares against `'object'`). -/
inductive Dtype where
  | object
  | int64
deriving DecidableEq

/-- A database / DataFrame cell value. -/
inductive Cell where
  | null
  | int (i : Int)
  | str (s : String)
deriving DecidableEq

/-- A table column: its name, its declared SQLite type (what
`PRAGMA table_info` reports), and the pandas dtype `read_sql_query`
infers for it. -/
structure Column where
  name : String
  declType : String
  dtype : Dtype
deriving DecidableEq

/-- A SQLite table: name, columns and row-major contents. -/
structure Table where
  name : String
  columns : List Column
  rows : List (List Cell)
deriving DecidableEq

/-- The source database. -/
structure Database where
  tables : List Table
deriving DecidableEq

/-- A pandas DataFrame column: name, dtype and cell values. -/
structure DFCol where
  name : String
  dtype : Dtype
  values : List Cell
deriving DecidableEq

/-- A pandas DataFrame, column-major as pandas stores it. -/
structure DataFrame where
  cols : List DFCol
deriving DecidableEq

/-- Denotation of `pd.read_sql_query('SELECT * FROM "t"', conn)`: the whole
table as a DataFrame. -/
def tableToDF (t : Table) : DataFrame :=
  ⟨(List.range t.columns.length).zip t.columns |>.map
    (fun p => ⟨p.2.name, p.2.dtype, t.rows.map (fun r => r.getD p.1 Cell.null)⟩)⟩

/-- `df.shape[0]`: the number of rows of a DataFrame. -/
def dfNRows (df : DataFrame) : Nat :=
  match df.cols with
  | [] => 0
  | c :: _ => c.values.length

/-- `df.head(n)` (also the denotation of `LIMIT n`). -/
def dfHead (n : Nat) (df : DataFrame) : DataFrame :=
  ⟨df.cols.map (fun c => ⟨c.name, c.dtype, c.values.take n⟩)⟩

/-! ### Newline sanitisation (`export_to_csv`, lines 166-169)

`df[col] = df[col].str.replace('\n', ' ').str.replace('\r', ' ').str.strip()`
on each column of dtype `object`.  The two `str.replace` calls with a
one-character pattern map each `'\n'` resp. `'\r'` to a space; `str.strip`
then removes leading and trailing whitespace.  pandas `.str` methods turn
every non-string element of an object column into a missing value (NaN),
modelled by `Cell.null`. -/

/-- The value-level sanitisation of one string cell. -/
def sanitizeStr (s : String) : String :=
  String.mk (pyStripList
    ((s.data.map (fun c => if c = '\n' then ' ' else c)).map
      (fun c => if c = '\r' then ' ' else c)))

/-- One element of an object column under the `.str` pipeline of line 169. -/
def sanitizeCellValue : Cell → Cell
  | Cell.str s => Cell.str (sanitizeStr s)
  | _ => Cell.null

/-- Lines 167-169: the column is rewritten only when its dtype is
`object`. -/
def sanitizeDFCol (c : DFCol) : DFCol :=
  if c.dtype = Dtype.object then ⟨c.name, c.dtype, c.values.map sanitizeCellValue⟩ else c

/-- The whole-DataFrame cleanup loop of lines 167-169. -/
def sanitizeDF (df : DataFrame) : DataFrame :=
  ⟨df.cols.map sanitizeDFCol⟩

/-! ### Paths, SQL strings and aggregate-query denotations -/

/-- `DB_PATH` rendered as the f-strings of lines 194-195 render it. -/
def DB_PATH_STR : String := "datasets/AAD/Automotive_Attack_Database_(AAD)_V3.0.db"

/-- `LOG_DIR`. -/
def LOG_DIR_STR : String := "logs"

/-- `LOG_FILE`, with the run's `datetime.now().strftime('%Y%m%d_%H%M%S')`
abstracted as the string `ts`. -/
def logFilePath (ts : String) : String :=
  LOG_DIR_STR ++ "/AAD_analysis_" ++ ts ++ ".log"

/-- `OUTPUT_DIR` of `export_to_csv`. -/
def EXPORT_DIR_STR : String := "exports"

/-- Line 172: `f"AAD_{table_name.replace(' ', '_')}_{...strftime(...)}.csv"`. -/
def spacesToUnderscores (s : String) : String :=
  String.mk (s.data.map (fun c => if c = ' ' then '_' else c))

/-- The CSV file name written for table `tname` at clock reading `ts`. -/
def csvFileName (tname ts : String) : String :=
  "AAD_" ++ spacesToUnderscores tname ++ "_" ++ ts ++ ".csv"

/-- The CSV file's path `OUTPUT_DIR / csv_filename`. -/
def csvPath (tname ts : String) : String :=
  EXPORT_DIR_STR ++ "/" ++ csvFileName tname ts

/-- The table-enumeration statement run by three of the stages. -/
def masterSql : String := "SELECT name FROM sqlite_master WHERE type='table';"

/-- `PRAGMA table_info("t")`. -/
def pragmaSql (n : String) : String := "PRAGMA table_info(\"" ++ n ++ "\")"

/-- `SELECT COUNT(*) FROM "t"`. -/
def countSql (n : String) : String := "SELECT COUNT(*) FROM \"" ++ n ++ "\""

/-- `SELECT * FROM "t"`. -/
def selectAllSql (n : String) : String := "SELECT * FROM \"" ++ n ++ "\""

/-- The table the aggregate queries of `example_queries` address. -/
def mainTableName : String := "Automotive Security Attacks"

/-- Line 101's SQL. -/
def q1Sql : String := "SELECT * FROM \"Automotive Security Attacks\" LIMIT 5"

/-- Line 110's SQL. -/
def q2Sql : String :=
  "SELECT Year, COUNT(*) as Count FROM \"Automotive Security Attacks\" GROUP BY Year ORDER BY Year"

/-- Line 123's SQL. -/
def q3Sql : String :=
  "SELECT \"Attack Type\", COUNT(*) as Count FROM \"Automotive Security Attacks\" GROUP BY \"Attack Type\" ORDER BY Count DESC LIMIT 10"

/-- Line 133's SQL. -/
def q4Sql : String :=
  "SELECT \"Violated Security Property\", COUNT(*) as Count FROM \"Automotive Security Attacks\" GROUP BY \"Violated Security Property\" ORDER BY Count DESC LIMIT 10"

/-- Look a table up by name (SQLite resolution of a table reference). -/
def findTable (db : Database) (n : String) : Option Table :=
  db.tables.find? (fun t => t.name == n)

/-- Whether table `t` has a column named `c`. -/
def hasCol (t : Table) (c : String) : Bool :=
  (t.columns.findIdx? (fun col => col.name == c)).isSome

/-- The values of column `c` of table `t` (empty when no such column). -/
def colCells (t : Table) (c : String) : List Cell :=
  match t.columns.findIdx? (fun col => col.name == c) with
  | some i => t.rows.map (fun r => r.getD i Cell.null)
  | none => []

/-- One `(value, COUNT(*))` pair per distinct value of column `c`, in
first-occurrence order (the grouping step of the three `GROUP BY`
queries). -/
def groupCountBy (t : Table) (c : String) : List (Cell × Nat) :=
  (distinctL (colCells t c)).map (fun v => (v, (colCells t c).count v))

/-- SQLite ordering on the cell values that occur here: NULL before
integers before text, text lexicographic. -/
def cellLe : Cell → Cell → Bool
  | Cell.null, _ => true
  | _, Cell.null => false
  | Cell.int i, Cell.int j => decide (i ≤ j)
  | Cell.int _, Cell.str _ => true
  | Cell.str _, Cell.int _ => false
  | Cell.str s, Cell.str u => charListLe s.data u.data

/-- The result rows of line 110's query: counts by `Year`,
`ORDER BY Year`. -/
def dfByYearRaw (t : Table) : List (Cell × Nat) :=
  sortLe (fun a b => cellLe a.1 b.1) (groupCountBy t "Year")

/-- The result rows of lines 123/133: counts by column `c`,
`ORDER BY Count DESC LIMIT 10`. -/
def topCounts (t : Table) (c : String) : List (Cell × Nat) :=
  (sortLe (fun a b => decide (b.2 ≤ a.2)) (groupCountBy t c)).take 10

/-- `True` exactly when a cell is an integer (pandas dtype inference). -/
def isIntCell : Cell → Bool
  | Cell.int _ => true
  | _ => false

/-- The dtype pandas infers for a result column: `int64` when the column is
non-empty and all integers, `object` otherwise. -/
def inferDtype (l : List Cell) : Dtype :=
  if !l.isEmpty && l.all isIntCell then Dtype.int64 else Dtype.object

/-- Line 114, elementwise: `.str.extract(r'(\d{4})', expand=False)` maps a
string to its first four-digit run and anything else (including a missing
match) to NaN. -/
def extractCell : Cell → Cell
  | Cell.str s =>
    match extract4 s.data with
    | some cs => Cell.str (String.mk cs)
    | none => Cell.null
  | _ => Cell.null

/-- Lines 114-115: extract the year, group by it summing the counts
(pandas drops NaN group keys and sorts the keys), then
`sort_values('Year')`. -/
def groupedYears (t : Table) : List (String × Nat) :=
  let pairs := (dfByYearRaw t).filterMap (fun p =>
    match extractCell p.1 with
    | Cell.str y => some (y, p.2)
    | _ => none)
  let keys := sortLe (fun a b => charListLe a.data b.data) (distinctL (pairs.map (fun p => p.1)))
  keys.map (fun k => (k, ((pairs.filter (fun p => p.1 == k)).map (fun p => p.2)).sum))

/-- The DataFrame logged for the first example query (line 101). -/
def sampleDF (t : Table) : DataFrame := dfHead 5 (tableToDF t)

/-- `df_by_year_grouped` of line 115. -/
def yearGroupedDF (t : Table) : DataFrame :=
  ⟨[⟨"Year", Dtype.object, (groupedYears t).map (fun p => Cell.str p.1)⟩,
    ⟨"Count", Dtype.int64, (groupedYears t).map (fun p => Cell.int (Int.ofNat p.2))⟩]⟩

/-- A two-column `(value, Count)` result DataFrame. -/
def pairDF (cname : String) (ps : List (Cell × Nat)) : DataFrame :=
  ⟨[⟨cname, inferDtype (ps.map (fun p => p.1)), ps.map (fun p => p.1)⟩,
    ⟨"Count", Dtype.int64, ps.map (fun p => Cell.int (Int.ofNat p.2))⟩]⟩

/-- `df_types` of line 122. -/
def typesDF (t : Table) : DataFrame := pairDF "Attack Type" (topCounts t "Attack Type")

/-- `df_props` of line 132. -/
def propsDF (t : Table) : DataFrame :=
  pairDF "Violated Security Property" (topCounts t "Violated Security Property")

/-! ### Observable events and the per-stage traces -/

/-- The pipeline's four stages. -/
inductive Stage where
  | inspect
  | load
  | queries
  | exportCsv
deriving DecidableEq

/-- An observable effect of the script.  `logDF df` stands for
`log_output(df.to_string(...))`: the rendering of `df` written to the log
file (the pandas pretty-printer itself is not modelled). -/
inductive Event where
  | connect
  | closeConn
  | query (sql : String)
  | logLine (s : String)
  | logDF (df : DataFrame)
  | printLine (s : String)
  | mkdir (dir : String)
  | csvWrite (path : String) (df : DataFrame)
deriving DecidableEq

/-- `"=" * 60`. -/
def eqLine : String := String.mk (List.replicate 60 '=')

/-- `"-" * 40`. -/
def dashLine : String := String.mk (List.replicate 40 '-')

/-- The three `log_output` calls that open a stage. -/
def bannerEvents (title : String) : List Event :=
  [Event.logLine eqLine, Event.logLine title, Event.logLine eqLine]

/-- Lines 42-58: the per-table part of `inspect_database`. -/
def inspectTableEvents (t : Table) : List Event :=
  [Event.logLine ("Table: " ++ t.name),
   Event.logLine dashLine,
   Event.query (pragmaSql t.name)] ++
  t.columns.map (fun c =>
    Event.logLine ("  " ++ padRight c.name 30 ++ " " ++ padRight c.declType 10)) ++
  [Event.query (countSql t.name),
   Event.logLine ("\n  Total rows: " ++ toString t.rows.length ++ "\n")]

/-- Lines 37-58 of `inspect_database`: everything between `connect` and
`conn.close()` on the fault-free path. -/
def inspectMid (db : Database) : List Event :=
  [Event.query masterSql,
   Event.logLine ("\nFound " ++ toString db.tables.length ++ " table(s):\n")] ++
  (db.tables.map inspectTableEvents).flatten

/-- The fault-free trace of `inspect_database`. -/
def inspectTrace (db : Database) : List Event :=
  bannerEvents "INSPECTING DATABASE STRUCTURE" ++ [Event.connect] ++
    inspectMid db ++ [Event.closeConn]

/-- Lines 27-60: `inspect_database`.  The stage has no `try`, so a fault
raised at its first database operation (right after `sqlite3.connect`)
propagates out of the function: the second component is the uncaught
exception. -/
def inspect_database (db : Database) (fault : Option String) : List Event × Option String :=
  match fault with
  | some e => (bannerEvents "INSPECTING DATABASE STRUCTURE" ++ [Event.connect], some e)
  | none => (inspectTrace db, none)

/-- Python dict assignment `d[k] = v`: replace the value when the key is
present, append otherwise. -/
def dictInsert (d : List (String × DataFrame)) (k : String) (v : DataFrame) :
    List (String × DataFrame) :=
  if d.any (fun p => p.1 == k) then d.map (fun p => if p.1 == k then (k, v) else p)
  else d ++ [(k, v)]

/-- Lines 78-85: the per-table part of `load_data`. -/
def loadTableEvents (t : Table) : List Event :=
  [Event.query (selectAllSql t.name),
   Event.logLine ("\nTable: " ++ t.name),
   Event.logLine ("Shape: (" ++ toString (dfNRows (tableToDF t)) ++ ", " ++
     toString (tableToDF t).cols.length ++ ")"),
   Event.logLine ("Columns: " ++ pyListRepr ((tableToDF t).cols.map DFCol.name) ++ "\n"),
   Event.logDF (dfHead 3 (tableToDF t)),
   Event.logLine ""]

/-- Lines 72-85 of `load_data`: everything between `connect` and
`conn.close()` on the fault-free path. -/
def loadMid (db : Database) : List Event :=
  [Event.query masterSql] ++ (db.tables.map loadTableEvents).flatten

/-- The fault-free trace of `load_data`. -/
def loadTrace (db : Database) : List Event :=
  bannerEvents "LOADING DATA INTO PANDAS" ++ [Event.connect] ++ loadMid db ++ [Event.closeConn]

/-- The `dataframes` dict `load_data` builds (lines 76-80). -/
def loadDict (db : Database) : List (String × DataFrame) :=
  db.tables.foldl (fun d t => dictInsert d t.name (tableToDF t)) []

/-- Lines 63-88: `load_data`.  Returns the `dataframes` dict, the log/event
trace, and the uncaught exception when the fault fires (the stage has no
`try` either). -/
def load_data (db : Database) (fault : Option String) :
    List (String × DataFrame) × List Event × Option String :=
  match fault with
  | some e => ([], bannerEvents "LOADING DATA INTO PANDAS" ++ [Event.connect], some e)
  | none => (loadDict db, loadTrace db, none)

/-- Lines 99-139: the `try` body of `example_queries`, whose exception
handler runs `log_output(f"Query error: {e}")`.  Raisable exceptions: an
injected fault at the first database call; a missing main table (line 101);
a missing grouping column (lines 110/123/133, raised by SQLite when the
query runs); a non-string `Year` result column (line 114, raised by the
pandas `.str` accessor).  A query event records the SQL reaching SQLite,
and is emitted before the error the statement raises. -/
def exampleQueriesMid (db : Database) (fault : Option String) : List Event :=
  match fault with
  | some e => [Event.logLine ("Query error: " ++ e)]
  | none =>
    match findTable db mainTableName with
     | none => [Event.query q1Sql,
                Event.logLine ("Query error: no such table: " ++ mainTableName)]
     | some t =>
       [Event.query q1Sql, Event.logLine "\nFirst 5 attacks:", Event.logDF (sampleDF t),
        Event.logLine ("\n" ++ eqLine), Event.logLine "Attacks by Year:", Event.logLine eqLine,
        Event.query q2Sql] ++
       (if hasCol t "Year" then
          (if inferDtype ((dfByYearRaw t).map (fun p => p.1)) = Dtype.object then
             [Event.logDF (yearGroupedDF t),
              Event.logLine ("\n" ++ eqLine), Event.logLine "Top 10 Attack Types:",
              Event.logLine eqLine, Event.query q3Sql] ++
             (if hasCol t "Attack Type" then
                [Event.logDF (typesDF t),
                 Event.logLine ("\n" ++ eqLine), Event.logLine "Security Properties Violated:",
                 Event.logLine eqLine, Event.query q4Sql] ++
                (if hasCol t "Violated Security Property" then
                   [Event.logDF (propsDF t)]
                 else
                   [Event.logLine "Query error: no such column: Violated Security Property"])
              else [Event.logLine "Query error: no such column: Attack Type"])
           else [Event.logLine "Query error: Can only use .str accessor with string values!"])
        else [Event.logLine "Query error: no such column: Year"])

/-- Lines 91-141: `example_queries` as a trace: banner, `connect`, the
`try` body (see `exampleQueriesMid`), `conn.close()`. -/
def example_queries (db : Database) (fault : Option String) : List Event :=
  bannerEvents "EXAMPLE QUERIES" ++ [Event.connect] ++ exampleQueriesMid db fault ++
    [Event.closeConn]

/-- Lines 162-181: the per-table part of `export_to_csv`: reload the table,
sanitise it, write the CSV, log the summary. -/
def exportTableEvents (ts : String) (t : Table) : List Event :=
  [Event.query (selectAllSql t.name),
   Event.csvWrite (csvPath t.name ts) (sanitizeDF (tableToDF t)),
   Event.logLine ("\nExported: " ++ t.name),
   Event.logLine ("  Rows: " ++ toString (dfNRows (sanitizeDF (tableToDF t)))),
   Event.logLine ("  Columns: " ++ toString (sanitizeDF (tableToDF t)).cols.length),
   Event.logLine ("  File: " ++ csvPath t.name ts)]

/-- Lines 156-188: the `try` body of `export_to_csv`, whose exception
handler logs and prints `f"Export error: {e}"` (an injected fault fires at
the body's first database call). -/
def exportMid (db : Database) (ts : String) (fault : Option String) : List Event :=
  match fault with
  | some e => [Event.logLine ("Export error: " ++ e), Event.printLine ("Export error: " ++ e)]
  | none =>
    [Event.query masterSql] ++ (db.tables.map (exportTableEvents ts)).flatten ++
    [Event.logLine ("\nAll exports complete! Files saved to: " ++ EXPORT_DIR_STR),
     Event.printLine ("\nCSV export complete! Files saved to: " ++ EXPORT_DIR_STR)]

/-- Lines 144-190: `export_to_csv` as a trace: banner, `OUTPUT_DIR.mkdir`,
`connect`, the `try` body (see `exportMid`), `conn.close()`. -/
def export_to_csv (db : Database) (ts : String) (fault : Option String) : List Event :=
  bannerEvents "EXPORTING DATA TO CSV" ++ [Event.mkdir EXPORT_DIR_STR, Event.connect] ++
    exportMid db ts fault ++ [Event.closeConn]

/-- Lines 14-16 and 194-196: module import (`LOG_DIR.mkdir(exist_ok=True)`)
and the three informational prints that precede the `DB_PATH.exists()`
check.  `dbOpt` is `some db` when `DB_PATH.exists()`; `ts` is the run's
clock; in `main_run`, `fi fl fq fe` are the per-stage injected faults, and
the result is the event trace together with the exception, if any, that
escapes to the interpreter. -/
def mainHeader (dbOpt : Option Database) (ts : String) : List Event :=
  [Event.mkdir LOG_DIR_STR,
   Event.printLine ("\nDatabase path: " ++ DB_PATH_STR),
   Event.printLine ("Database exists: " ++
     (match dbOpt with | some _ => "True" | none => "False")),
   Event.printLine ("Log file: " ++ logFilePath ts ++ "\n")]

/-- Lines 193-205 continued: the `__main__` block proper. -/
def main_run (dbOpt : Option Database) (ts : String) (fi fl fq fe : Option String) :
    List Event × Option String :=
  match dbOpt with
  | none => (mainHeader none ts ++ [Event.printLine "ERROR: Database file not found!"], none)
  | some db =>
    match inspect_database db fi with
    | (evsI, some e) => (mainHeader (some db) ts ++ evsI, some e)
    | (evsI, none) =>
      match load_data db fl with
      | (_, evsL, some e) => (mainHeader (some db) ts ++ evsI ++ evsL, some e)
      | (_, evsL, none) =>
        (mainHeader (some db) ts ++ evsI ++ evsL ++ example_queries db fq ++
          export_to_csv db ts fe ++
          [Event.printLine ("\nAnalysis complete! Results saved to: " ++ logFilePath ts)],
         none)

/-! ### Event classifiers -/

/-- Is the event a `sqlite3.connect`? -/
def isConnect : Event → Bool
  | Event.connect => true
  | _ => false

/-- Is the event a `conn.close()`? -/
def isCloseConn : Event → Bool
  | Event.closeConn => true
  | _ => false

/-- Is the event a console print? -/
def isPrintLine : Event → Bool
  | Event.printLine _ => true
  | _ => false

/-- Is the event a directory creation? -/
def isMkdir : Event → Bool
  | Event.mkdir _ => true
  | _ => false

/-- Is the event a write to the log file? -/
def isLogWrite : Event → Bool
  | Event.logLine _ => true
  | Event.logDF _ => true
  | _ => false

/-- Is the event a CSV file write? -/
def isCsvWrite : Event → Bool
  | Event.csvWrite _ _ => true
  | _ => false

/-- The SQL of a query event. -/
def queryOf : Event → Option String
  | Event.query s => some s
  | _ => none

/-- The DataFrame of a logged query result. -/
def dfOf : Event → Option DataFrame
  | Event.logDF df => some df
  | _ => none

/-- The `(path, contents)` of a CSV write. -/
def csvOf : Event → Option (String × DataFrame)
  | Event.csvWrite p df => some (p, df)
  | _ => none

/-- A read-only SQL statement: a `SELECT` or a `PRAGMA`. -/
def isReadSql (s : String) : Bool :=
  startsWithList s.data ("SELECT".data) || startsWithList s.data ("PRAGMA".data)

/-- The stage whose banner title a log line is, if any. -/
def bannerStage : Event → Option Stage
  | Event.logLine s =>
    if s = "INSPECTING DATABASE STRUCTURE" then some Stage.inspect
    else if s = "LOADING DATA INTO PANDAS" then some Stage.load
    else if s = "EXAMPLE QUERIES" then some Stage.queries
    else if s = "EXPORTING DATA TO CSV" then some Stage.exportCsv
    else none
  | _ => none

/-- The banner titles occurring in a trace, in order. -/
def stagesOf (evs : List Event) : List Stage :=
  evs.filterMap bannerStage

/-! ### A concrete test database

A small instance of the AAD shape: the main table with its three grouping
columns, a free-text `Description` column (object dtype) and an integer
`ID` column (int64 dtype). -/

/-- The `Year` column of the test table. -/
def col0Y : Column := ⟨"Year", "TEXT", Dtype.object⟩

/-- The `Attack Type` column of the test table. -/
def col0A : Column := ⟨"Attack Type", "TEXT", Dtype.object⟩

/-- The `Violated Security Property` column of the test table. -/
def col0V : Column := ⟨"Violated Security Property", "TEXT", Dtype.object⟩

/-- The `Description` column of the test table. -/
def col0D : Column := ⟨"Description", "TEXT", Dtype.object⟩

/-- The `ID` column of the test table. -/
def col0I : Column := ⟨"ID", "INTEGER", Dtype.int64⟩

/-- A three-row instance of the `Automotive Security Attacks` table. -/
def t0 : Table :=
  ⟨"Automotive Security Attacks",
   [col0Y, col0A, col0V, col0D, col0I],
   [[Cell.str "2015 (Jan)", Cell.str "Spoofing", Cell.str "Integrity",
     Cell.str " a ", Cell.int 1],
    [Cell.str "2016", Cell.str "DoS", Cell.str "Availability",
     Cell.str "line1\nline2", Cell.int 2],
    [Cell.str "2016", Cell.str "Replay", Cell.str "Integrity",
     Cell.str "abc", Cell.int 3]]⟩

/-- A one-table test database. -/
def db0 : Database := ⟨[t0]⟩

/-- A fixed clock reading for concrete runs. -/
def ts0 : String := "20250101_000000"

/-! ### Generic helper lemmas -/

/-- `String.append` concatenates the underlying character lists. -/
lemma string_data_append (a b : String) : (a ++ b).data = a.data ++ b.data := by
  cases a; cases b; rfl

/-- The first two characters of a string, used to separate log lines from
the stage banner titles. -/
def firstTwo (s : String) : Option (Char × Char) :=
  match s.data with
  | a :: b :: _ => some (a, b)
  | _ => none

/-- Strings with different leading character pairs differ. -/
lemma ne_of_firstTwo {a b : String} (h : firstTwo a ≠ firstTwo b) : a ≠ b :=
  fun hab => h (by rw [hab])

/-- The leading pair of an append is the prefix's leading pair. -/
lemma firstTwo_append (p s : String) (c : Char × Char) (h : firstTwo p = some c) :
    firstTwo (p ++ s) = some c := by
  unfold firstTwo at h ⊢
  rw [string_data_append]
  rcases hp : p.data with _ | ⟨a, _ | ⟨b, t⟩⟩ <;> rw [hp] at h <;> simp at h <;> simp [h]

/-- A log line whose first two characters are not `IN`, `LO` or `EX` is not
a stage banner title. -/
lemma bannerStage_none_of_firstTwo (s : String) (c : Char × Char) (h : firstTwo s = some c)
    (hc : c ≠ ('I', 'N') ∧ c ≠ ('L', 'O') ∧ c ≠ ('E', 'X')) :
    bannerStage (Event.logLine s) = none := by
  have h1 : s ≠ "INSPECTING DATABASE STRUCTURE" :=
    ne_of_firstTwo (by rw [h]; intro hx; exact hc.1 (by injection hx))
  have h2 : s ≠ "LOADING DATA INTO PANDAS" :=
    ne_of_firstTwo (by rw [h]; intro hx; exact hc.2.1 (by injection hx))
  have h3 : s ≠ "EXAMPLE QUERIES" :=
    ne_of_firstTwo (by rw [h]; intro hx; exact hc.2.2 (by injection hx))
  have h4 : s ≠ "EXPORTING DATA TO CSV" :=
    ne_of_firstTwo (by rw [h]; intro hx; exact hc.2.2 (by injection hx))
  simp [bannerStage, h1, h2, h3, h4]

/-- The `"=" * 60` separator is not a banner title. -/
lemma bannerStage_eqLine : bannerStage (Event.logLine eqLine) = none := by decide

/-- A list with no `p`-elements has `countP p` zero. -/
lemma countP_eq_zero_of {α : Type} (p : α → Bool) (l : List α)
    (h : ∀ e ∈ l, p e = false) : l.countP p = 0 :=
  List.countP_eq_zero.mpr (fun e he => by simp [h e he])

/-- A list on which `g` never fires filterMaps to `[]`. -/
lemma filterMap_eq_nil_of {α β : Type} (g : α → Option β) (l : List α)
    (h : ∀ e ∈ l, g e = none) : l.filterMap g = [] :=
  List.filterMap_eq_nil_iff.mpr h

/-- `countP` of a flattened map is zero when every block is `p`-free. -/
lemma countP_flatten_zero {α β : Type} (p : β → Bool) (f : α → List β) (l : List α)
    (h : ∀ x ∈ l, ∀ e ∈ f x, p e = false) : ((l.map f).flatten).countP p = 0 := by
  apply countP_eq_zero_of
  intro e he
  rcases List.mem_flatten.mp he with ⟨le, hle, hel⟩
  rcases List.mem_map.mp hle with ⟨x, hx, rfl⟩
  exact h x hx e hel

/-- `filterMap` of a flattened map is empty when `g` fires in no block. -/
lemma filterMap_flatten_nil {α β γ : Type} (g : β → Option γ) (f : α → List β) (l : List α)
    (h : ∀ x ∈ l, ∀ e ∈ f x, g e = none) : ((l.map f).flatten).filterMap g = [] := by
  apply filterMap_eq_nil_of
  intro e he
  rcases List.mem_flatten.mp he with ⟨le, hle, hel⟩
  rcases List.mem_map.mp hle with ⟨x, hx, rfl⟩
  exact h x hx e hel

/-- `filterMap` of a flattened map with one hit per block. -/
lemma filterMap_flatten_map {α β γ : Type} (g : β → Option γ) (f : α → List β)
    (u : α → γ) (l : List α) (h : ∀ x ∈ l, (f x).filterMap g = [u x]) :
    ((l.map f).flatten).filterMap g = l.map u := by
  induction l with
  | nil => rfl
  | cons x xs ih =>
    rw [List.map_cons, List.flatten_cons, List.filterMap_append, h x (by simp),
      ih (fun y hy => h y (by simp [hy])), List.map_cons]
    rfl

/-- An element of a block is in the flattened map. -/
lemma mem_flatten_of {α β : Type} (f : α → List β) {l : List α} {x : α} {e : β}
    (hx : x ∈ l) (he : e ∈ f x) : e ∈ (l.map f).flatten :=
  List.mem_flatten.mpr ⟨f x, List.mem_map_of_mem f hx, he⟩

/-- `l` starts with itself. -/
lemma startsWithList_self (l : List Char) : startsWithList l l = true := by
  induction l with
  | nil => rfl
  | cons a as ih => simp [startsWithList, ih]

/-- Starting with `p` is stable under extending the list on the right. -/
lemma startsWithList_append_right (p a x : List Char)
    (h : startsWithList a p = true) : startsWithList (a ++ x) p = true := by
  induction p generalizing a with
  | nil => cases a <;> simp [startsWithList]
  | cons b bs ih =>
    cases a with
    | nil => exact absurd h (by simp [startsWithList])
    | cons c cs =>
      simp only [List.cons_append, startsWithList, Bool.and_eq_true] at h ⊢
      exact ⟨h.1, ih cs h.2⟩

/-- A list starting with `needle` contains it. -/
lemma containsList_of_startsWith (hay needle : List Char)
    (h : startsWithList hay needle = true) : containsList hay needle = true := by
  cases hay with
  | nil =>
    cases needle with
    | nil => rfl
    | cons b bs => exact absurd h (by simp [startsWithList])
  | cons x xs => simp [containsList, h]

/-- Containment is stable under a cons on the left. -/
lemma containsList_cons (x : Char) (t needle : List Char)
    (h : containsList t needle = true) : containsList (x :: t) needle = true := by
  simp [containsList, h]

/-- `b` occurs in `a ++ (b ++ c)`. -/
lemma containsList_mid (a b c : List Char) : containsList (a ++ (b ++ c)) b = true := by
  induction a with
  | nil =>
    simp only [List.nil_append]
    exact containsList_of_startsWith _ _ (startsWithList_append_right b b c (startsWithList_self b))
  | cons x xs ih => exact containsList_cons x _ b ih

/-! ### Event classification between `connect` and `close` -/

/-- Boolean check on the events a stage emits between its `connect` and its
`conn.close()`: none of them is a connection event or a stage banner, and
any SQL carried is read-only. -/
def midOKb (e : Event) : Bool :=
  !(isConnect e) && !(isCloseConn e) && (bannerStage e).isNone &&
    (match e with
     | Event.query s => isReadSql s
     | _ => true)

/-- Unpacking `midOKb`. -/
lemma midOKb_spec (e : Event) (h : midOKb e = true) :
    isConnect e = false ∧ isCloseConn e = false ∧ bannerStage e = none ∧
      ∀ s, e = Event.query s → isReadSql s = true := by
  unfold midOKb at h
  simp only [Bool.and_eq_true, Bool.not_eq_true'] at h
  refine ⟨h.1.1.1, h.1.1.2, Option.isNone_iff_eq_none.mp h.1.2, ?_⟩
  intro s hs
  subst hs
  exact h.2

/-- A log line with a safe first character passes `midOKb`. -/
lemma midOKb_logLine_of (x : String) (h : bannerStage (Event.logLine x) = none) :
    midOKb (Event.logLine x) = true := by
  simp [midOKb, isConnect, isCloseConn, h]

/-- One-append log lines. -/
lemma midOKb_logLine_pre1 (p x : String) {c : Char × Char} (hp : firstTwo p = some c)
    (hc : c ≠ ('I', 'N') ∧ c ≠ ('L', 'O') ∧ c ≠ ('E', 'X')) :
    midOKb (Event.logLine (p ++ x)) = true :=
  midOKb_logLine_of _ (bannerStage_none_of_firstTwo _ c (firstTwo_append p x c hp) hc)

/-- Two-append log lines. -/
lemma midOKb_logLine_pre2 (p x y : String) {c : Char × Char} (hp : firstTwo p = some c)
    (hc : c ≠ ('I', 'N') ∧ c ≠ ('L', 'O') ∧ c ≠ ('E', 'X')) :
    midOKb (Event.logLine (p ++ x ++ y)) = true :=
  midOKb_logLine_of _ (bannerStage_none_of_firstTwo _ c
    (firstTwo_append _ y c (firstTwo_append p x c hp)) hc)

/-- Three-append log lines. -/
lemma midOKb_logLine_pre3 (p x y z : String) {c : Char × Char} (hp : firstTwo p = some c)
    (hc : c ≠ ('I', 'N') ∧ c ≠ ('L', 'O') ∧ c ≠ ('E', 'X')) :
    midOKb (Event.logLine (p ++ x ++ y ++ z)) = true :=
  midOKb_logLine_of _ (bannerStage_none_of_firstTwo _ c
    (firstTwo_append _ z c (firstTwo_append _ y c (firstTwo_append p x c hp))) hc)

/-- Four-append log lines. -/
lemma midOKb_logLine_pre4 (p x y z w : String) {c : Char × Char} (hp : firstTwo p = some c)
    (hc : c ≠ ('I', 'N') ∧ c ≠ ('L', 'O') ∧ c ≠ ('E', 'X')) :
    midOKb (Event.logLine (p ++ x ++ y ++ z ++ w)) = true :=
  midOKb_logLine_of _ (bannerStage_none_of_firstTwo _ c
    (firstTwo_append _ w c
      (firstTwo_append _ z c (firstTwo_append _ y c (firstTwo_append p x c hp)))) hc)

/-- A read-only query passes `midOKb`. -/
lemma midOKb_query_of (s : String) (h : isReadSql s = true) :
    midOKb (Event.query s) = true := by
  simp [midOKb, isConnect, isCloseConn, bannerStage, h]

/-- A SQL text of the form `pre ++ n ++ suf` whose prefix starts with
`SELECT` or `PRAGMA` is read-only. -/
lemma isReadSql_wrap (pre n suf : String)
    (h : (startsWithList pre.data ("SELECT".data) ||
          startsWithList pre.data ("PRAGMA".data)) = true) :
    isReadSql (pre ++ n ++ suf) = true := by
  unfold isReadSql
  rw [string_data_append, string_data_append, Bool.or_eq_true]
  rw [Bool.or_eq_true] at h
  rcases h with h1 | h1
  · exact Or.inl (startsWithList_append_right _ _ _ (startsWithList_append_right _ _ _ h1))
  · exact Or.inr (startsWithList_append_right _ _ _ (startsWithList_append_right _ _ _ h1))

/-- `SELECT * FROM "n"` is read-only. -/
lemma midOKb_selectAll (n : String) : midOKb (Event.query (selectAllSql n)) = true :=
  midOKb_query_of _ (isReadSql_wrap "SELECT * FROM \"" n "\"" (by decide))

/-- `SELECT COUNT(*) FROM "n"` is read-only. -/
lemma midOKb_count (n : String) : midOKb (Event.query (countSql n)) = true :=
  midOKb_query_of _ (isReadSql_wrap "SELECT COUNT(*) FROM \"" n "\"" (by decide))

/-- `PRAGMA table_info("n")` is read-only. -/
lemma midOKb_pragma (n : String) : midOKb (Event.query (pragmaSql n)) = true :=
  midOKb_query_of _ (isReadSql_wrap "PRAGMA table_info(\"" n "\")" (by decide))

/-- Every event of `inspectTableEvents` stays clear of connections and
banners and issues only read statements. -/
lemma inspectTable_ok (t : Table) : ∀ e ∈ inspectTableEvents t, midOKb e = true := by
  intro e he
  simp only [inspectTableEvents, List.mem_append, List.mem_cons, List.mem_map,
    List.not_mem_nil, or_false] at he
  rcases he with ((rfl | rfl | rfl) | ⟨c, _, rfl⟩) | rfl | rfl
  · exact midOKb_logLine_pre1 _ _ rfl (by decide)
  · decide
  · exact midOKb_pragma _
  · exact midOKb_logLine_pre3 _ _ _ _ rfl (by decide)
  · exact midOKb_count _
  · exact midOKb_logLine_pre2 _ _ _ rfl (by decide)

/-- Likewise for `loadTableEvents`. -/
lemma loadTable_ok (t : Table) : ∀ e ∈ loadTableEvents t, midOKb e = true := by
  intro e he
  simp only [loadTableEvents, List.mem_cons, List.not_mem_nil, or_false] at he
  rcases he with rfl | rfl | rfl | rfl | rfl | rfl
  · exact midOKb_selectAll _
  · exact midOKb_logLine_pre1 _ _ rfl (by decide)
  · exact midOKb_logLine_pre4 _ _ _ _ _ rfl (by decide)
  · exact midOKb_logLine_pre2 _ _ _ rfl (by decide)
  · rfl
  · decide

/-- Likewise for `exportTableEvents`. -/
lemma exportTable_ok (ts : String) (t : Table) :
    ∀ e ∈ exportTableEvents ts t, midOKb e = true := by
  intro e he
  simp only [exportTableEvents, List.mem_cons, List.not_mem_nil, or_false] at he
  rcases he with rfl | rfl | rfl | rfl | rfl | rfl
  · exact midOKb_selectAll _
  · rfl
  · exact midOKb_logLine_pre1 _ _ rfl (by decide)
  · exact midOKb_logLine_pre1 _ _ rfl (by decide)
  · exact midOKb_logLine_pre1 _ _ rfl (by decide)
  · exact midOKb_logLine_pre1 _ _ rfl (by decide)

/-- Every event of `inspectMid` passes `midOKb`. -/
lemma inspectMid_ok (db : Database) : ∀ e ∈ inspectMid db, midOKb e = true := by
  intro e he
  simp only [inspectMid, List.mem_append, List.mem_cons, List.not_mem_nil, or_false] at he
  rcases he with (rfl | rfl) | hf
  · decide
  · exact midOKb_logLine_pre2 _ _ _ rfl (by decide)
  · rcases List.mem_flatten.mp hf with ⟨le, hle, hel⟩
    rcases List.mem_map.mp hle with ⟨t, _, rfl⟩
    exact inspectTable_ok t e hel

/-- Every event of `loadMid` passes `midOKb`. -/
lemma loadMid_ok (db : Database) : ∀ e ∈ loadMid db, midOKb e = true := by
  intro e he
  simp only [loadMid, List.mem_append, List.mem_cons, List.not_mem_nil, or_false] at he
  rcases he with rfl | hf
  · decide
  · rcases List.mem_flatten.mp hf with ⟨le, hle, hel⟩
    rcases List.mem_map.mp hle with ⟨t, _, rfl⟩
    exact loadTable_ok t e hel

/-- Every event of `exampleQueriesMid` passes `midOKb`. -/
lemma exampleQueriesMid_ok (db : Database) (f : Option String) :
    ∀ e ∈ exampleQueriesMid db f, midOKb e = true := by
  intro e he
  unfold exampleQueriesMid at he
  rcases f with _ | err
  · rcases hft : findTable db mainTableName with _ | t <;> rw [hft] at he
    · simp only [List.mem_cons, List.not_mem_nil, or_false] at he
      rcases he with rfl | rfl
      all_goals decide
    · by_cases hY : hasCol t "Year" <;>
        by_cases hD : inferDtype ((dfByYearRaw t).map (fun p => p.1)) = Dtype.object <;>
        by_cases hA : hasCol t "Attack Type" <;>
        by_cases hV : hasCol t "Violated Security Property" <;>
        simp [hY, hD, hA, hV] at he <;>
        (repeat' (first | (rcases he with rfl | he) | subst he)) <;>
        (first | rfl | decide)
  · simp only [List.mem_cons, List.not_mem_nil, or_false] at he
    rcases he with rfl
    exact midOKb_logLine_pre1 _ _ rfl (by decide)

/-- Every event of `exportMid` passes `midOKb`. -/
lemma exportMid_ok (db : Database) (ts : String) (f : Option String) :
    ∀ e ∈ exportMid db ts f, midOKb e = true := by
  intro e he
  unfold exportMid at he
  rcases f with _ | err
  · simp only [List.mem_append, List.mem_cons, List.not_mem_nil, or_false] at he
    rcases he with (rfl | hf) | rfl | rfl
    · decide
    · rcases List.mem_flatten.mp hf with ⟨le, hle, hel⟩
      rcases List.mem_map.mp hle with ⟨t, _, rfl⟩
      exact exportTable_ok ts t e hel
    · exact midOKb_logLine_pre1 _ _ rfl (by decide)
    · rfl
  · simp only [List.mem_cons, List.not_mem_nil, or_false] at he
    rcases he with rfl | rfl
    · exact midOKb_logLine_pre1 _ _ rfl (by decide)
    · rfl

/-! ### Per-stage structure lemmas -/

/-- `connect` is not a banner. -/
lemma bannerStage_connect : bannerStage Event.connect = none := rfl

/-- `closeConn` is not a banner. -/
lemma bannerStage_close : bannerStage Event.closeConn = none := rfl

/-- `mkdir` is not a banner. -/
lemma bannerStage_mkdir (d : String) : bannerStage (Event.mkdir d) = none := rfl

/-- `stagesOf` of a banner/connect/mid/close trace is the banner title's
contribution alone. -/
lemma stagesOf_of_mid (title : String) (mid : List Event)
    (h : ∀ e ∈ mid, midOKb e = true) :
    stagesOf (bannerEvents title ++ [Event.connect] ++ mid ++ [Event.closeConn]) =
      stagesOf [Event.logLine title] := by
  have h0 : List.filterMap bannerStage mid = [] :=
    filterMap_eq_nil_of bannerStage mid (fun e he => (midOKb_spec e (h e he)).2.2.1)
  simp [stagesOf, bannerEvents, List.filterMap_append, List.filterMap_cons,
    bannerStage_eqLine, h0, bannerStage_connect, bannerStage_close, bannerStage_mkdir]

/-- The variant with the `mkdir` of the export stage. -/
lemma stagesOf_of_mid_mkdir (title d : String) (mid : List Event)
    (h : ∀ e ∈ mid, midOKb e = true) :
    stagesOf (bannerEvents title ++ [Event.mkdir d, Event.connect] ++ mid ++
        [Event.closeConn]) = stagesOf [Event.logLine title] := by
  have h0 : List.filterMap bannerStage mid = [] :=
    filterMap_eq_nil_of bannerStage mid (fun e he => (midOKb_spec e (h e he)).2.2.1)
  simp [stagesOf, bannerEvents, List.filterMap_append, List.filterMap_cons,
    bannerStage_eqLine, h0, bannerStage_connect, bannerStage_close, bannerStage_mkdir]

/-- The inspect stage contributes exactly its own banner. -/
lemma stagesOf_inspectTrace (db : Database) :
    stagesOf (inspectTrace db) = [Stage.inspect] := by
  rw [inspectTrace, stagesOf_of_mid _ _ (fun e he => inspectMid_ok db e he)]
  decide

/-- The load stage contributes exactly its own banner. -/
lemma stagesOf_loadTrace (db : Database) :
    stagesOf (loadTrace db) = [Stage.load] := by
  rw [loadTrace, stagesOf_of_mid _ _ (fun e he => loadMid_ok db e he)]
  decide

/-- The query stage contributes exactly its own banner. -/
lemma stagesOf_example_queries (db : Database) (f : Option String) :
    stagesOf (example_queries db f) = [Stage.queries] := by
  rw [example_queries, stagesOf_of_mid _ _ (fun e he => exampleQueriesMid_ok db f e he)]
  decide

/-- The export stage contributes exactly its own banner. -/
lemma stagesOf_export_to_csv (db : Database) (ts : String) (f : Option String) :
    stagesOf (export_to_csv db ts f) = [Stage.exportCsv] := by
  rw [export_to_csv, stagesOf_of_mid_mkdir _ _ _ (fun e he => exportMid_ok db ts f e he)]
  decide

/-- The header contributes no banner. -/
lemma stagesOf_mainHeader (o : Option Database) (ts : String) :
    stagesOf (mainHeader o ts) = [] := by
  cases o <;> simp [mainHeader, stagesOf, bannerStage]

/-- A banner/connect/mid/close trace opens exactly one connection. -/
lemma countP_connect_of_mid (title : String) (mid : List Event)
    (h : ∀ e ∈ mid, midOKb e = true) :
    (bannerEvents title ++ [Event.connect] ++ mid ++ [Event.closeConn]).countP isConnect
      = 1 := by
  have h0 : mid.countP isConnect = 0 :=
    countP_eq_zero_of isConnect mid (fun e he => (midOKb_spec e (h e he)).1)
  simp [bannerEvents, List.countP_append, List.countP_cons, isConnect, h0]

/-- ... and closes exactly one. -/
lemma countP_close_of_mid (title : String) (mid : List Event)
    (h : ∀ e ∈ mid, midOKb e = true) :
    (bannerEvents title ++ [Event.connect] ++ mid ++ [Event.closeConn]).countP isCloseConn
      = 1 := by
  have h0 : mid.countP isCloseConn = 0 :=
    countP_eq_zero_of isCloseConn mid (fun e he => (midOKb_spec e (h e he)).2.1)
  simp [bannerEvents, List.countP_append, List.countP_cons, isCloseConn, h0]

/-- The `mkdir` variants. -/
lemma countP_connect_of_mid_mkdir (title d : String) (mid : List Event)
    (h : ∀ e ∈ mid, midOKb e = true) :
    (bannerEvents title ++ [Event.mkdir d, Event.connect] ++ mid ++
      [Event.closeConn]).countP isConnect = 1 := by
  have h0 : mid.countP isConnect = 0 :=
    countP_eq_zero_of isConnect mid (fun e he => (midOKb_spec e (h e he)).1)
  simp [bannerEvents, List.countP_append, List.countP_cons, isConnect, h0]

/-- The `mkdir` close variant. -/
lemma countP_close_of_mid_mkdir (title d : String) (mid : List Event)
    (h : ∀ e ∈ mid, midOKb e = true) :
    (bannerEvents title ++ [Event.mkdir d, Event.connect] ++ mid ++
      [Event.closeConn]).countP isCloseConn = 1 := by
  have h0 : mid.countP isCloseConn = 0 :=
    countP_eq_zero_of isCloseConn mid (fun e he => (midOKb_spec e (h e he)).2.1)
  simp [bannerEvents, List.countP_append, List.countP_cons, isCloseConn, h0]

/-- Any SQL issued in a banner/connect/mid/close trace is read-only. -/
lemma readSql_of_mid (title : String) (mid : List Event)
    (h : ∀ e ∈ mid, midOKb e = true) :
    ∀ s, Event.query s ∈ bannerEvents title ++ [Event.connect] ++ mid ++ [Event.closeConn] →
      isReadSql s = true := by
  intro s hs
  simp only [bannerEvents, List.mem_append, List.mem_cons, List.not_mem_nil, or_false,
    reduceCtorEq, false_or] at hs
  exact (midOKb_spec _ (h _ hs)).2.2.2 s rfl

/-- The `mkdir` variant. -/
lemma readSql_of_mid_mkdir (title d : String) (mid : List Event)
    (h : ∀ e ∈ mid, midOKb e = true) :
    ∀ s, Event.query s ∈ bannerEvents title ++ [Event.mkdir d, Event.connect] ++ mid ++
        [Event.closeConn] → isReadSql s = true := by
  intro s hs
  simp only [bannerEvents, List.mem_append, List.mem_cons, List.not_mem_nil, or_false,
    reduceCtorEq, false_or] at hs
  exact (midOKb_spec _ (h _ hs)).2.2.2 s rfl

/-- The successful run decomposes into header and the four stage traces. -/
lemma main_run_success (db : Database) (ts : String) (fq fe : Option String) :
    main_run (some db) ts none none fq fe =
      (mainHeader (some db) ts ++ inspectTrace db ++ loadTrace db ++
        example_queries db fq ++ export_to_csv db ts fe ++
        [Event.printLine ("\nAnalysis complete! Results saved to: " ++ logFilePath ts)],
       none) := rfl

/-- `stagesOf` distributes over append. -/
lemma stagesOf_append (l1 l2 : List Event) :
    stagesOf (l1 ++ l2) = stagesOf l1 ++ stagesOf l2 :=
  List.filterMap_append l1 l2 bannerStage

/-! ### Claim theorems: run structure -/

/-- Claim C5: on every invocation where the database file exists, the four
stages run sequentially exactly once each, in the fixed order schema
inspection, bulk load, aggregate queries, CSV export — witnessed by the
sequence of stage banners the run writes — and nothing escapes the run. -/
theorem run_stage_order (db : Database) (ts : String) :
    stagesOf (main_run (some db) ts none none none none).1 =
      [Stage.inspect, Stage.load, Stage.queries, Stage.exportCsv] ∧
    (main_run (some db) ts none none none none).2 = none := by
  rw [main_run_success]
  refine ⟨?_, rfl⟩
  rw [stagesOf_append, stagesOf_append, stagesOf_append, stagesOf_append, stagesOf_append,
    stagesOf_mainHeader, stagesOf_inspectTrace, stagesOf_loadTrace,
    stagesOf_example_queries, stagesOf_export_to_csv]
  rfl

/-- Claim C1 (counterexample): at the concrete database `db0` the run opens
four connections, not one shared by all four stages. -/
theorem one_connection_counterexample :
    ¬ ((main_run (some db0) ts0 none none none none).1.countP isConnect = 1) ∧
    (main_run (some db0) ts0 none none none none).1.countP isConnect = 4 := by
  decide

/-- Claim C1 (amended): each of the four stages opens its own connection to
the source database — four per run — each stage closes the connection it
opened, and every SQL statement issued over any of them is a read
(a `SELECT` or a `PRAGMA`). -/
theorem four_connections_readonly (db : Database) (ts : String) :
    (main_run (some db) ts none none none none).1.countP isConnect = 4 ∧
    (main_run (some db) ts none none none none).1.countP isCloseConn = 4 ∧
    ∀ s, Event.query s ∈ (main_run (some db) ts none none none none).1 →
      isReadSql s = true := by
  rw [main_run_success]
  refine ⟨?_, ?_, ?_⟩
  · rw [List.countP_append, List.countP_append, List.countP_append, List.countP_append,
      List.countP_append,
      inspectTrace, countP_connect_of_mid _ _ (fun e he => inspectMid_ok db e he),
      loadTrace, countP_connect_of_mid _ _ (fun e he => loadMid_ok db e he),
      example_queries, countP_connect_of_mid _ _ (fun e he => exampleQueriesMid_ok db none e he),
      export_to_csv,
      countP_connect_of_mid_mkdir _ _ _ (fun e he => exportMid_ok db ts none e he)]
    simp [mainHeader, List.countP_cons, isConnect]
  · rw [List.countP_append, List.countP_append, List.countP_append, List.countP_append,
      List.countP_append,
      inspectTrace, countP_close_of_mid _ _ (fun e he => inspectMid_ok db e he),
      loadTrace, countP_close_of_mid _ _ (fun e he => loadMid_ok db e he),
      example_queries, countP_close_of_mid _ _ (fun e he => exampleQueriesMid_ok db none e he),
      export_to_csv,
      countP_close_of_mid_mkdir _ _ _ (fun e he => exportMid_ok db ts none e he)]
    simp [mainHeader, List.countP_cons, isCloseConn]
  · intro s hs
    simp only [List.mem_append] at hs
    rcases hs with ((((hh | hi) | hl) | hq) | he) | hp
    · simp [mainHeader] at hh
    · exact readSql_of_mid _ _ (fun e he => inspectMid_ok db e he) s
        (by rwa [inspectTrace] at hi)
    · exact readSql_of_mid _ _ (fun e he => loadMid_ok db e he) s
        (by rwa [loadTrace] at hl)
    · exact readSql_of_mid _ _ (fun e he => exampleQueriesMid_ok db none e he) s
        (by rwa [example_queries] at hq)
    · exact readSql_of_mid_mkdir _ _ _ (fun e he => exportMid_ok db ts none e he) s
        (by rwa [export_to_csv] at he)
    · simp at hp

/-- Witness for the amended C1 at the concrete database. -/
theorem four_connections_readonly_witness :
    (main_run (some db0) ts0 none none none none).1.countP isConnect = 4 ∧
    isReadSql q1Sql = true :=
  ⟨(four_connections_readonly db0 ts0).1,
   (four_connections_readonly db0 ts0).2.2 q1Sql (by decide)⟩

/-- Claim C4: an exception raised inside the `try` body of the
aggregate-query stage or of the export stage is caught, a `Query error:` /
`Export error:` message is logged (and, for export, printed), the
connection is still closed, and the run continues to completion; the other
two stages have no such handler — an exception raised there propagates and
aborts the run. -/
theorem catch_and_log_stages (db : Database) (ts e1 e2 : String) :
    example_queries db (some e1) =
      bannerEvents "EXAMPLE QUERIES" ++ [Event.connect] ++
        [Event.logLine ("Query error: " ++ e1)] ++ [Event.closeConn] ∧
    export_to_csv db ts (some e2) =
      bannerEvents "EXPORTING DATA TO CSV" ++ [Event.mkdir EXPORT_DIR_STR, Event.connect] ++
        [Event.logLine ("Export error: " ++ e2), Event.printLine ("Export error: " ++ e2)] ++
        [Event.closeConn] ∧
    (main_run (some db) ts none none (some e1) (some e2)).2 = none ∧
    Event.printLine ("\nAnalysis complete! Results saved to: " ++ logFilePath ts) ∈
      (main_run (some db) ts none none (some e1) (some e2)).1 ∧
    (inspect_database db (some e1)).2 = some e1 ∧
    (load_data db (some e1)).2.2 = some e1 ∧
    (main_run (some db) ts (some e1) none none none).2 = some e1 ∧
    (main_run (some db) ts none (some e1) none none).2 = some e1 := by
  refine ⟨rfl, rfl, rfl, ?_, rfl, rfl, rfl, rfl⟩
  rw [main_run_success]
  simp

/-- Claim C9: when the database file does not exist, the run opens no
database connection, writes nothing to the log file, writes no CSV file,
every effect is a console print or the startup `mkdir` of the log
directory, and the last effect is the error print. -/
theorem missing_db_only_prints (ts : String) (fi fl fq fe : Option String) :
    (main_run none ts fi fl fq fe).2 = none ∧
    (main_run none ts fi fl fq fe).1.countP isConnect = 0 ∧
    (∀ e ∈ (main_run none ts fi fl fq fe).1, isLogWrite e = false ∧ isCsvWrite e = false) ∧
    (main_run none ts fi fl fq fe).1.getLast? =
      some (Event.printLine "ERROR: Database file not found!") ∧
    ∀ e ∈ (main_run none ts fi fl fq fe).1, isPrintLine e = true ∨ isMkdir e = true := by
  refine ⟨rfl, rfl, ?_, rfl, ?_⟩
  · intro e he
    simp only [main_run, mainHeader, List.cons_append, List.nil_append, List.mem_cons,
      List.not_mem_nil, or_false] at he
    rcases he with rfl | rfl | rfl | rfl | rfl <;> exact ⟨rfl, rfl⟩
  · intro e he
    simp only [main_run, mainHeader, List.cons_append, List.nil_append, List.mem_cons,
      List.not_mem_nil, or_false] at he
    rcases he with rfl | rfl | rfl | rfl | rfl
    · exact Or.inr rfl
    all_goals exact Or.inl rfl

/-! ### Sanitisation lemmas -/

/-- `str.strip` only removes characters. -/
lemma mem_pyStripList {c : Char} {l : List Char} (h : c ∈ pyStripList l) : c ∈ l := by
  unfold pyStripList at h
  rw [List.mem_reverse] at h
  have h1 := List.Sublist.mem h (List.dropWhile_sublist _)
  rw [List.mem_reverse] at h1
  exact List.Sublist.mem h1 (List.dropWhile_sublist _)

/-- After the `.str` pipeline no character of a cell is a line break. -/
lemma sanitizeStr_no_newline (s : String) :
    ∀ c ∈ (sanitizeStr s).data, c ≠ '\n' ∧ c ≠ '\r' := by
  intro c hc
  unfold sanitizeStr at hc
  have h2 := mem_pyStripList hc
  rcases List.mem_map.mp h2 with ⟨b, hb, rfl⟩
  rcases List.mem_map.mp hb with ⟨a, _, rfl⟩
  by_cases h1 : a = '\n' <;> by_cases hr : a = '\r' <;> simp [h1, hr]

/-- A string with no line breaks and no strippable margin is unchanged by
the `.str` pipeline. -/
lemma sanitizeStr_eq_self (s : String) (h : ∀ c ∈ s.data, c ≠ '\n' ∧ c ≠ '\r')
    (hstrip : pyStrip s = s) : sanitizeStr s = s := by
  unfold sanitizeStr
  have h1 : s.data.map (fun c => if c = '\n' then ' ' else c) = s.data := by
    rw [List.map_congr_left (fun a ha => by simp [(h a ha).1] : ∀ a ∈ s.data,
      (if a = '\n' then ' ' else a) = id a), List.map_id]
  rw [h1]
  have h2 : s.data.map (fun c => if c = '\r' then ' ' else c) = s.data := by
    rw [List.map_congr_left (fun a ha => by simp [(h a ha).2] : ∀ a ∈ s.data,
      (if a = '\r' then ' ' else a) = id a), List.map_id]
  rw [h2]
  exact hstrip

/-! ### Export-trace characterisation -/

/-- Every CSV write of a fault-free export is the sanitised reload of one
of the database's tables, at its table-and-timestamp path. -/
lemma export_csvWrite_mem (db : Database) (ts : String) {p : String} {df : DataFrame}
    (h : Event.csvWrite p df ∈ export_to_csv db ts none) :
    ∃ t, t ∈ db.tables ∧ p = csvPath t.name ts ∧ df = sanitizeDF (tableToDF t) := by
  rw [export_to_csv] at h
  simp only [bannerEvents, List.mem_append, List.mem_cons, List.not_mem_nil, or_false,
    reduceCtorEq, false_or, or_false] at h
  unfold exportMid at h
  simp only [List.mem_append, List.mem_cons, List.not_mem_nil, or_false,
    reduceCtorEq, false_or, or_false] at h
  rcases List.mem_flatten.mp h with ⟨le, hle, hel⟩
  rcases List.mem_map.mp hle with ⟨t, ht, rfl⟩
  simp only [exportTableEvents, List.mem_cons, List.not_mem_nil, or_false,
    reduceCtorEq, false_or, or_false] at hel
  injection hel with hp hdf
  exact ⟨t, ht, hp, hdf⟩

/-- Conversely, each table's sanitised CSV write occurs in the trace. -/
lemma export_csvWrite_of_mem (db : Database) (ts : String) {t : Table}
    (ht : t ∈ db.tables) :
    Event.csvWrite (csvPath t.name ts) (sanitizeDF (tableToDF t)) ∈
      export_to_csv db ts none := by
  rw [export_to_csv]
  apply List.mem_append_left
  apply List.mem_append_right
  unfold exportMid
  apply List.mem_append_left
  apply List.mem_append_right
  exact mem_flatten_of (exportTableEvents ts) ht (by simp [exportTableEvents])

/-! ### Claim theorems: CSV sanitisation -/

/-- Claim C3: in every CSV file the export stage writes, every string value
of every object-dtype (text) column contains no newline and no
carriage-return character. -/
theorem export_strips_newlines (db : Database) (ts : String) (p : String) (df : DataFrame)
    (hmem : Event.csvWrite p df ∈ export_to_csv db ts none) :
    ∀ col ∈ df.cols, col.dtype = Dtype.object →
      ∀ s, Cell.str s ∈ col.values → ∀ c ∈ s.data, c ≠ '\n' ∧ c ≠ '\r' := by
  rcases export_csvWrite_mem db ts hmem with ⟨t, _, _, rfl⟩
  intro col hcol hdt s hs
  rcases List.mem_map.mp hcol with ⟨c0, _, rfl⟩
  unfold sanitizeDFCol at hdt hs
  by_cases h0 : c0.dtype = Dtype.object
  · rw [if_pos h0] at hs
    rcases List.mem_map.mp hs with ⟨v, _, hv⟩
    cases v with
    | str u =>
      have hu : sanitizeStr u = s := by injection hv
      rw [← hu]
      exact sanitizeStr_no_newline u
    | null => simp [sanitizeCellValue] at hv
    | int i => simp [sanitizeCellValue] at hv
  · rw [if_neg h0] at hdt
    exact absurd hdt h0

/-- Witness for C3 at the concrete database: the space of the sanitised
`"line1 line2"` cell is neither `'\n'` nor `'\r'`. -/
theorem export_strips_newlines_witness : ' ' ≠ '\n' ∧ ' ' ≠ '\r' :=
  export_strips_newlines db0 ts0 (csvPath "Automotive Security Attacks" ts0)
    (sanitizeDF (tableToDF t0)) (by decide)
    ⟨"Description", Dtype.object, [Cell.str "a", Cell.str "line1 line2", Cell.str "abc"]⟩
    (by decide) rfl "line1 line2" (by decide) ' ' (by decide)

/-- Claim C10: sanitisation touches only object-dtype columns; every
written DataFrame comes from a table of the database, and each of its
columns whose dtype is not `object` is written exactly as loaded. -/
theorem export_non_object_unchanged (db : Database) (ts : String) (p : String)
    (df : DataFrame) (hmem : Event.csvWrite p df ∈ export_to_csv db ts none) :
    ∃ t, t ∈ db.tables ∧ df = sanitizeDF (tableToDF t) ∧
      ∀ (i : Nat) (col : DFCol), (tableToDF t).cols[i]? = some col →
        col.dtype ≠ Dtype.object → df.cols[i]? = some col := by
  rcases export_csvWrite_mem db ts hmem with ⟨t, ht, _, rfl⟩
  refine ⟨t, ht, rfl, ?_⟩
  intro i col hi hdt
  show (sanitizeDF (tableToDF t)).cols[i]? = some col
  unfold sanitizeDF
  show ((tableToDF t).cols.map sanitizeDFCol)[i]? = some col
  rw [List.getElem?_map, hi]
  simp [sanitizeDFCol, hdt]

/-- Witness for C10: the integer `ID` column of the concrete table is
written unchanged. -/
theorem export_non_object_unchanged_witness :
    (sanitizeDF (tableToDF t0)).cols[4]? =
      some ⟨"ID", Dtype.int64, [Cell.int 1, Cell.int 2, Cell.int 3]⟩ := by
  rcases export_non_object_unchanged db0 ts0 (csvPath mainTableName ts0)
      (sanitizeDF (tableToDF t0)) (by decide) with ⟨t, ht, hdf, h⟩
  have ht0 : t = t0 := by
    have : db0.tables = [t0] := rfl
    rw [this] at ht
    simpa using ht
  subst ht0
  exact h 4 _ (by decide) (by decide)

/-- Claim C2 (counterexample): the `Description` cell `" a "` of the
concrete table contains no line break, yet the export writes it as `"a"` —
`str.strip()` also removes the margin. -/
theorem export_unchanged_counterexample :
    Event.csvWrite (csvPath mainTableName ts0) (sanitizeDF (tableToDF t0)) ∈
      export_to_csv db0 ts0 none ∧
    (tableToDF t0).cols[3]? = some ⟨"Description", Dtype.object,
      [Cell.str " a ", Cell.str "line1\nline2", Cell.str "abc"]⟩ ∧
    containsList (" a ").data ['\n'] = false ∧
    containsList (" a ").data ['\r'] = false ∧
    (sanitizeDF (tableToDF t0)).cols[3]? = some ⟨"Description", Dtype.object,
      [Cell.str "a", Cell.str "line1 line2", Cell.str "abc"]⟩ ∧
    Cell.str "a" ≠ Cell.str " a " := by decide

/-- Claim C2 (amended): the export writes each table's sanitised reload,
and the only transformations are on object-dtype columns: a string cell
with no line breaks and no leading or trailing whitespace is written
unchanged (as is every cell of a non-object column). -/
theorem export_unchanged_values (db : Database) (ts : String) (t : Table)
    (ht : t ∈ db.tables) :
    Event.csvWrite (csvPath t.name ts) (sanitizeDF (tableToDF t)) ∈
      export_to_csv db ts none ∧
    (∀ (i : Nat) (col : DFCol), (tableToDF t).cols[i]? = some col →
      (sanitizeDF (tableToDF t)).cols[i]? = some (sanitizeDFCol col)) ∧
    ∀ col ∈ (tableToDF t).cols, ∀ (j : Nat) (s : String),
      col.values[j]? = some (Cell.str s) →
      (∀ c ∈ s.data, c ≠ '\n' ∧ c ≠ '\r') → pyStrip s = s →
      (sanitizeDFCol col).values[j]? = some (Cell.str s) := by
  refine ⟨export_csvWrite_of_mem db ts ht, ?_, ?_⟩
  · intro i col hi
    show ((tableToDF t).cols.map sanitizeDFCol)[i]? = some (sanitizeDFCol col)
    rw [List.getElem?_map, hi]
    rfl
  · intro col _ j s hj hnl hstrip
    unfold sanitizeDFCol
    by_cases h0 : col.dtype = Dtype.object
    · rw [if_pos h0]
      show (col.values.map sanitizeCellValue)[j]? = some (Cell.str s)
      rw [List.getElem?_map, hj]
      simp [sanitizeCellValue, sanitizeStr_eq_self s hnl hstrip]
    · rw [if_neg h0]
      exact hj

/-- Witness for the amended C2: the clean `"abc"` cell is written
unchanged. -/
theorem export_unchanged_values_witness :
    (sanitizeDFCol ⟨"Description", Dtype.object,
        [Cell.str " a ", Cell.str "line1\nline2", Cell.str "abc"]⟩).values[2]? =
      some (Cell.str "abc") :=
  (export_unchanged_values db0 ts0 t0 (by decide)).2.2 _ (by decide) 2 "abc"
    (by decide) (by decide) (by decide)

/-! ### Claim theorems: file naming (C7) -/

/-- `b` occurs in `a ++ b ++ c` at the string level. -/
lemma strContains_mid (a b c : String) : containsList (a ++ b ++ c).data b.data = true := by
  rw [string_data_append, string_data_append, List.append_assoc]
  exact containsList_mid _ _ _

/-- Claim C7 (counterexample): the export writes the main table's file, but
the file name does not contain the table's name — the spaces were replaced
by underscores. -/
theorem filename_counterexample :
    Event.csvWrite (csvPath mainTableName ts0) (sanitizeDF (tableToDF t0)) ∈
      export_to_csv db0 ts0 none ∧
    containsList (csvFileName mainTableName ts0).data mainTableName.data = false := by
  decide

/-- Claim C7 (amended): a fault-free export writes exactly one CSV file per
enumerated table, in enumeration order, into the exports directory, and
each file's name contains the table's name with spaces replaced by
underscores, and the timestamp. -/
theorem one_file_per_table (db : Database) (ts : String) :
    (export_to_csv db ts none).filterMap csvOf =
      db.tables.map (fun t => (csvPath t.name ts, sanitizeDF (tableToDF t))) ∧
    ∀ t ∈ db.tables,
      containsList (csvFileName t.name ts).data (spacesToUnderscores t.name).data = true ∧
      containsList (csvFileName t.name ts).data ts.data = true ∧
      startsWithList (csvPath t.name ts).data (EXPORT_DIR_STR ++ "/").data = true := by
  constructor
  · rw [export_to_csv]
    unfold exportMid
    simp only [bannerEvents, List.filterMap_append, List.filterMap_cons, csvOf,
      List.filterMap_nil]
    rw [filterMap_flatten_map csvOf (exportTableEvents ts)
      (fun t => (csvPath t.name ts, sanitizeDF (tableToDF t))) db.tables
      (fun t _ => by simp [exportTableEvents, List.filterMap_cons, csvOf])]
    simp
  · intro t _
    refine ⟨?_, ?_, ?_⟩
    · unfold csvFileName
      have hsplit : ("AAD_" ++ spacesToUnderscores t.name ++ "_" ++ ts ++ ".csv").data =
          "AAD_".data ++ ((spacesToUnderscores t.name).data ++
            ("_".data ++ ts.data ++ ".csv".data)) := by
        rw [string_data_append, string_data_append, string_data_append, string_data_append]
        simp [List.append_assoc]
      rw [hsplit]
      exact containsList_mid _ _ _
    · unfold csvFileName
      have hsplit : ("AAD_" ++ spacesToUnderscores t.name ++ "_" ++ ts ++ ".csv").data =
          ("AAD_".data ++ (spacesToUnderscores t.name).data ++ "_".data) ++
            (ts.data ++ ".csv".data) := by
        rw [string_data_append, string_data_append, string_data_append, string_data_append]
        simp [List.append_assoc]
      rw [hsplit]
      exact containsList_mid _ _ _
    · unfold csvPath
      rw [string_data_append]
      exact startsWithList_append_right _ _ _ (startsWithList_self _)

/-- Witness for the amended C7 at the concrete database. -/
theorem one_file_per_table_witness :
    (export_to_csv db0 ts0 none).filterMap csvOf =
      db0.tables.map (fun t => (csvPath t.name ts0, sanitizeDF (tableToDF t))) ∧
    containsList (csvFileName t0.name ts0).data (spacesToUnderscores t0.name).data = true ∧
    containsList (csvFileName t0.name ts0).data ts0.data = true :=
  ⟨(one_file_per_table db0 ts0).1,
   ((one_file_per_table db0 ts0).2 t0 (by decide)).1,
   ((one_file_per_table db0 ts0).2 t0 (by decide)).2.1⟩

/-! ### Claim theorems: the aggregate reporter (C6) -/

/-- Claim C6: when the main table exists and has the three grouping columns
with a text `Year` result, the aggregate-reporter stage issues exactly the
four fixed SQL statements, in order (row sample, count-by-year,
count-by-attack-type, count-by-violated-property), each addressing the
table `Automotive Security Attacks`, and writes each query's formatted
result DataFrame to the log, in the same order. -/
theorem four_fixed_queries (db : Database) (t : Table)
    (hfind : findTable db mainTableName = some t)
    (hY : hasCol t "Year" = true)
    (hD : inferDtype ((dfByYearRaw t).map (fun p => p.1)) = Dtype.object)
    (hA : hasCol t "Attack Type" = true)
    (hV : hasCol t "Violated Security Property" = true) :
    (example_queries db none).filterMap queryOf = [q1Sql, q2Sql, q3Sql, q4Sql] ∧
    (∀ q ∈ [q1Sql, q2Sql, q3Sql, q4Sql], containsList q.data mainTableName.data = true) ∧
    (example_queries db none).filterMap dfOf =
      [sampleDF t, yearGroupedDF t, typesDF t, propsDF t] := by
  refine ⟨?_, by decide, ?_⟩
  · unfold example_queries exampleQueriesMid
    rw [hfind]
    simp [hY, hD, hA, hV, bannerEvents, List.filterMap_append, List.filterMap_cons, queryOf]
  · unfold example_queries exampleQueriesMid
    rw [hfind]
    simp [hY, hD, hA, hV, bannerEvents, List.filterMap_append, List.filterMap_cons, dfOf]

/-- Witness for C6 at the concrete database. -/
theorem four_fixed_queries_witness :
    (example_queries db0 none).filterMap queryOf = [q1Sql, q2Sql, q3Sql, q4Sql] ∧
    (example_queries db0 none).filterMap dfOf =
      [sampleDF t0, yearGroupedDF t0, typesDF t0, propsDF t0] :=
  ⟨(four_fixed_queries db0 t0 (by decide) (by decide) (by decide) (by decide) (by decide)).1,
   (four_fixed_queries db0 t0 (by decide) (by decide) (by decide) (by decide)
     (by decide)).2.2⟩

/-! ### Claim theorems: the bulk loader (C8) -/

/-- A fresh key is appended. -/
lemma dictInsert_append (d : List (String × DataFrame)) (k : String) (v : DataFrame)
    (h : d.any (fun p => p.1 == k) = false) : dictInsert d k v = d ++ [(k, v)] := by
  unfold dictInsert
  simp [h]

/-- Folding the dict inserts over tables with fresh, pairwise-distinct
names appends one entry per table. -/
lemma loadDict_foldl (l : List Table) (acc : List (String × DataFrame))
    (hd : ∀ t ∈ l, acc.any (fun p => p.1 == t.name) = false)
    (hnd : (l.map Table.name).Nodup) :
    l.foldl (fun d t => dictInsert d t.name (tableToDF t)) acc =
      acc ++ l.map (fun t => (t.name, tableToDF t)) := by
  induction l generalizing acc with
  | nil => simp
  | cons t ts ih =>
    rw [List.foldl_cons, dictInsert_append _ _ _ (hd t (by simp))]
    rw [List.map_cons, List.nodup_cons] at hnd
    rw [ih (acc ++ [(t.name, tableToDF t)]) ?_ hnd.2]
    · simp
    · intro u hu
      rw [List.any_append]
      have h2 : ([(t.name, tableToDF t)].any (fun p => p.1 == u.name)) = false := by
        have hmem : u.name ∈ ts.map Table.name := List.mem_map_of_mem _ hu
        have hne : t.name ≠ u.name := fun he => hnd.1 (he ▸ hmem)
        simp [hne]
      rw [hd u (by simp [hu]), h2]
      rfl

/-- The column names of the loaded DataFrame are the table's. -/
lemma tableToDF_names (t : Table) :
    (tableToDF t).cols.map DFCol.name = t.columns.map Column.name := by
  unfold tableToDF
  rw [List.map_map]
  have hz : ((List.range t.columns.length).zip t.columns).map Prod.snd = t.columns :=
    List.map_snd_zip _ _ (by simp)
  calc ((List.range t.columns.length).zip t.columns).map
        (DFCol.name ∘ fun p => ⟨p.2.name, p.2.dtype, t.rows.map (fun r => r.getD p.1 Cell.null)⟩)
      = ((List.range t.columns.length).zip t.columns).map (Column.name ∘ Prod.snd) := rfl
    _ = (((List.range t.columns.length).zip t.columns).map Prod.snd).map Column.name := by
        rw [List.map_map]
    _ = t.columns.map Column.name := by rw [hz]

/-- The loaded DataFrame has one column per table column. -/
lemma tableToDF_ncols (t : Table) : (tableToDF t).cols.length = t.columns.length := by
  unfold tableToDF
  simp

/-- With at least one column, the loaded DataFrame's row count is the
table's. -/
lemma tableToDF_nrows (t : Table) (hc : t.columns ≠ []) :
    dfNRows (tableToDF t) = t.rows.length := by
  unfold tableToDF dfNRows
  cases hcs : t.columns with
  | nil => exact absurd hcs hc
  | cons c cs => simp [hcs, List.range_succ_eq_map]

/-- Lift a per-table event into the load trace. -/
lemma mem_loadTrace_of (db : Database) {t : Table} {e : Event} (ht : t ∈ db.tables)
    (he : e ∈ loadTableEvents t) : e ∈ loadTrace db := by
  rw [loadTrace]
  apply List.mem_append_left
  apply List.mem_append_right
  rw [loadMid]
  apply List.mem_append_right
  exact mem_flatten_of loadTableEvents ht he

/-- Claim C8: with a well-formed database (distinct table names, each table
with at least one column), `load_data` returns one entry per enumerated
table, in order, holding the table's entire contents, and logs each
table's shape `(rows, columns)` and its column names. -/
theorem load_data_contents (db : Database)
    (hnd : (db.tables.map Table.name).Nodup)
    (hc : ∀ t ∈ db.tables, t.columns ≠ []) :
    (load_data db none).1 = db.tables.map (fun t => (t.name, tableToDF t)) ∧
    ∀ t ∈ db.tables,
      (tableToDF t).cols.map DFCol.name = t.columns.map Column.name ∧
      dfNRows (tableToDF t) = t.rows.length ∧
      Event.logLine ("Shape: (" ++ toString t.rows.length ++ ", " ++
        toString t.columns.length ++ ")") ∈ (load_data db none).2.1 ∧
      Event.logLine ("Columns: " ++ pyListRepr (t.columns.map Column.name) ++ "\n") ∈
        (load_data db none).2.1 := by
  constructor
  · show loadDict db = _
    unfold loadDict
    rw [loadDict_foldl db.tables [] (fun t _ => List.any_nil) hnd]
    simp
  · intro t ht
    refine ⟨tableToDF_names t, tableToDF_nrows t (hc t ht), ?_, ?_⟩
    · show _ ∈ loadTrace db
      apply mem_loadTrace_of db ht
      unfold loadTableEvents
      rw [tableToDF_nrows t (hc t ht), tableToDF_ncols t]
      simp
    · show _ ∈ loadTrace db
      apply mem_loadTrace_of db ht
      unfold loadTableEvents
      rw [tableToDF_names t]
      simp

/-- Witness for C8 at the concrete database. -/
theorem load_data_contents_witness :
    (load_data db0 none).1 = db0.tables.map (fun t => (t.name, tableToDF t)) ∧
    Event.logLine ("Shape: (" ++ toString t0.rows.length ++ ", " ++
      toString t0.columns.length ++ ")") ∈ (load_data db0 none).2.1 :=
  ⟨(load_data_contents db0 (by decide) (by decide)).1,
   ((load_data_contents db0 (by decide) (by decide)).2 t0 (by decide)).2.2.1⟩

/-- Witness for C9: the error print of the missing-database run is indeed a
console print. -/
theorem missing_db_only_prints_witness :
    isPrintLine (Event.printLine "ERROR: Database file not found!") = true ∨
    isMkdir (Event.printLine "ERROR: Database file not found!") = true :=
  (missing_db_only_prints ts0 none none none none).2.2.2.2
    (Event.printLine "ERROR: Database file not found!") (by decide)
